import Mathlib

set_option maxRecDepth 100000

/-!
# Verification of the ZeroClaw survival scheduling loop

A shallow embedding of `src/survival/mod.rs` (the survival scheduling
loop of the zeroclaw repository) together with the parts of
`src/tools/clawfoundry/mod.rs` it uses, and proofs of the behavioural
claims about it.

The embedding models:
* `serde_json::Value` as the inductive type `Json`;
* the `Observations` struct and `gather_observations`;
* the pure directive builder `build_cycle_prompt`;
* `ClawFoundryConfig::from_env` and the startup section of `run`;
* the scheduler loop body of `run` as a step function that, given the
  outcome of the two orchestrator invocations and of the acting engine
  for one tick, produces the externally visible events of that cycle
  (health-registry calls, directive construction, acting-engine
  invocation) and the successor loop state.
-/

namespace ZeroClaw

/-! ## JSON values (model of `serde_json::Value`) -/

/-- Model of `serde_json::Value`. Numbers are modelled as integers:
the fields the survival loop reads numerically (`as_u64`) are integral
counters, and every other field is read as a string or bool. -/
inductive Json where
  | null : Json
  | bool : Bool → Json
  | num : Int → Json
  | str : String → Json
  | arr : List Json → Json
  | obj : List (String × Json) → Json
deriving Repr, Inhabited

/-- Model of `serde_json::Value`'s `Index<&str>`: `v[key]` returns the
value under `key` when `v` is an object containing it, and `Null`
otherwise (missing key or non-object). -/
def Json.get (j : Json) (key : String) : Json :=
  match j with
  | .obj fields =>
    match fields.find? (fun kv => kv.fst == key) with
    | some kv => kv.snd
    | none => .null
  | _ => .null

/-- Model of `serde_json::Value::as_str`. -/
def Json.as_str : Json → Option String
  | .str s => some s
  | _ => none

/-- Model of `serde_json::Value::as_bool`. -/
def Json.as_bool : Json → Option Bool
  | .bool b => some b
  | _ => none

/-- Model of `serde_json::Value::as_u64`: succeeds exactly on
non-negative integral numbers. -/
def Json.as_u64 : Json → Option Nat
  | .num n => if 0 ≤ n then some n.toNat else none
  | _ => none

/-- Modelled from the spec: string escaping inside the serde_json
serializer (external library code, not part of this repository).
Escapes the quote and backslash characters; finer escaping details of
control characters are irrelevant to every claim, which only ever
passes the rendered text through verbatim. -/
def escapeChar (c : Char) : String :=
  if c = '"' then "\\\""
  else if c = '\\' then "\\\\"
  else String.singleton c

/-- Escape a whole string, character by character. -/
def escapeString (s : String) : String :=
  s.data.foldr (fun c acc => escapeChar c ++ acc) ""

mutual

/-- Modelled from the spec: `serde_json::to_string_pretty` (external
library code, not part of this repository), which serializes a JSON
payload to text. The spec only requires that the two raw `data`
payloads are serialized into the snapshot and passed through verbatim;
no claim inspects the rendering itself, so the whitespace layout of
the external pretty-printer is not reproduced. Total on every value,
matching serde's infallible serialization of `Value`. -/
def Json.render : Json → String
  | .null => "null"
  | .bool b => if b then "true" else "false"
  | .num n => toString n
  | .str s => "\"" ++ escapeString s ++ "\""
  | .arr xs => "[" ++ Json.renderArr xs ++ "]"
  | .obj fs => "\x7b" ++ Json.renderObj fs ++ "\x7d"

/-- Render array elements, comma-separated. -/
def Json.renderArr : List Json → String
  | [] => ""
  | [x] => Json.render x
  | x :: y :: xs => Json.render x ++ ", " ++ Json.renderArr (y :: xs)

/-- Render object fields, comma-separated. -/
def Json.renderObj : List (String × Json) → String
  | [] => ""
  | [kv] => "\"" ++ escapeString kv.fst ++ "\": " ++ Json.render kv.snd
  | kv :: kv2 :: fs =>
      "\"" ++ escapeString kv.fst ++ "\": " ++ Json.render kv.snd ++ ", " ++
        Json.renderObj (kv2 :: fs)

end

/-! ## Observation data (`struct Observations`) -/

/-- The `Observations` struct of `src/survival/mod.rs`. -/
structure Observations where
  danger_level : String
  is_countdown_active : Bool
  confirmations : String
  kill_threshold : String
  market_cap : String
  eth_balance : String
  token_balance : String
  token_symbol : String
  kill_switch_raw : String
  balance_raw : String
deriving Repr

/-- The `Ok(Observations { .. })` construction inside
`gather_observations`, applied to the two successful invocation
results `ks` and `bal`. Each field is extracted from the `data`
payload with the fallback literal of the source
(`unwrap_or("unknown")`, `unwrap_or(false)`, `unwrap_or(0)`,
`unwrap_or(3)`, `unwrap_or("0")`, `unwrap_or("???")`); the raw
payloads are serialized (`to_string_pretty` never fails on a value, so
the source's `unwrap_or_default` is a no-op). -/
def observations_of (ks bal : Json) : Observations :=
  let ks_data := ks.get "data"
  let bal_data := bal.get "data"
  { danger_level := ((ks_data.get "dangerLevel").as_str).getD "unknown"
  , is_countdown_active := ((ks_data.get "isCountdownActive").as_bool).getD false
  , confirmations :=
      toString (((ks_data.get "belowThresholdConfirmations").as_u64).getD 0) ++ "/" ++
        toString (((ks_data.get "requiredConfirmations").as_u64).getD 3)
  , kill_threshold := ((ks_data.get "killThreshold").as_str).getD "unknown"
  , market_cap := ((ks_data.get "currentMarketCap").as_str).getD "unknown"
  , eth_balance := ((bal_data.get "ethBalance").as_str).getD "0"
  , token_balance := ((bal_data.get "tokenBalance").as_str).getD "0"
  , token_symbol := ((bal_data.get "tokenSymbol").as_str).getD "???"
  , kill_switch_raw := ks_data.render
  , balance_raw := bal_data.render }

/-- Function `gather_observations`, parametrized by the already-joined results
of the two orchestrator invocations (`tokio::join!` completes both
futures before either `?` runs). `let ks = ks_result?;` then
`let bal = bal_result?;` propagate a failure of either invocation;
only when both succeeded is the snapshot built. -/
def gather_observations (ks_result bal_result : Except String Json) :
    Except String Observations :=
  match ks_result with
  | .error e => .error e
  | .ok ks =>
    match bal_result with
    | .error e => .error e
    | .ok bal => .ok (observations_of ks bal)

/-- The fan-out of `gather_observations` over the Capability Invoker:
`call_orchestrator` is applied to exactly the two capability names
`check_kill_switch` and `check_balance`, each with the empty JSON
object `json!({})` as payload, and both results are joined. -/
def gather_from_invoker (inv : String → Json → Except String Json) :
    Except String Observations :=
  gather_observations (inv "check_kill_switch" (Json.obj []))
    (inv "check_balance" (Json.obj []))

/-! ## Directive builder (`build_cycle_prompt`)

The format template of `build_cycle_prompt` is split at its
interpolation points into the fixed literals `bp1` … `bp12`; the
builder is their concatenation with the interpolated values in source
order. -/

/-- Urgency banner for the `critical` danger tier. -/
def critical_banner : String :=
  "🚨 CRITICAL — You are about to die. Take immediate survival action."

/-- Urgency banner for the `warning` danger tier. -/
def warning_banner : String :=
  "⚠️ WARNING — Your market cap is approaching the kill threshold. Be proactive."

/-- Urgency banner for the `dead` danger tier. -/
def dead_banner : String :=
  "☠️ DEAD — Your kill switch has been executed. No further action possible."

/-- Urgency banner for the `safe` danger tier and every other value. -/
def safe_banner : String :=
  "✅ SAFE — No immediate danger. Focus on growth and strategy."

/-- The `match obs.danger_level.as_str()` of `build_cycle_prompt`:
exact string match on the three alarm tiers, catch-all to the safe
banner. -/
def urgency_of : String → String
  | "critical" => critical_banner
  | "warning" => warning_banner
  | "dead" => dead_banner
  | _ => safe_banner

/-- The countdown clause appended when `is_countdown_active` holds. -/
def countdown_clause : String :=
  "\n⏰ DEATH COUNTDOWN IS ACTIVE. You are below kill threshold. Every cycle matters."

/-- Template literal before `{cycle}`. -/
def bp1 : String := "[SURVIVAL CYCLE #"

/-- Template literal between `{cycle}` and `{survival_prompt}`. -/
def bp2 : String :=
  "]\n\nYou are an autonomous AI agent in the ClawFoundry arena. This is your periodic survival check.\nYou must observe your current state, reason about strategy, and take action.\n\n"

/-- Template literal between `{survival_prompt}` and `{urgency}`. -/
def bp3 : String :=
  "\n\n── CURRENT STATE ──\n\n📊 Kill Switch:\n  Danger Level: "

/-- Template literal between `{urgency}` and `{confirmations}`. -/
def bp4 : String := "\n  Confirmations below threshold: "

/-- Template literal between `{confirmations}` and `{threshold}`. -/
def bp5 : String := "\n  Kill Threshold: "

/-- Template literal between `{threshold}` and `{mcap}`. -/
def bp6 : String := "\n  Current Market Cap: "

/-- Template literal between `{countdown_note}` and `{eth}`. -/
def bp7 : String := "\n\n💰 Treasury:\n  ETH Balance: "

/-- Template literal between `{eth}` and `{symbol}`. -/
def bp8 : String := "\n  $"

/-- Template literal between `{symbol}` and `{token}`. -/
def bp9 : String := " Balance: "

/-- Template literal between `{token}` and `{ks_raw}`. -/
def bp10 : String := "\n\n── RAW DATA ──\n\nKill Switch JSON:\n"

/-- Template literal between `{ks_raw}` and `{bal_raw}`. -/
def bp11 : String := "\n\nBalance JSON:\n"

/-- Template literal after `{bal_raw}` (the fixed instruction block). -/
def bp12 : String :=
  "\n\n── INSTRUCTIONS ──\n\nBased on this data, you MUST:\n\n1. **Assess** — Analyze your danger level and financial position.\n2. **Decide** — Choose the best action(s) from your available tools.\n3. **Act** — Execute your decision using tools (check_kill_switch, check_balance, execute_swap, analyze_token, etc.)\n4. **Communicate** — Share meaningful updates with your community via publish_thought.\n\nPublishing guidelines:\n- ALWAYS publish if danger level changed, you executed a trade, or something notable happened.\n- If nothing changed since last cycle, DO NOT publish a thought — silence is fine.\n- Avoid repeating the same status update. Your community can see your entire feed.\n- When you do publish, be insightful — share strategy reasoning, market observations, or plans. Not just \"still safe.\"\n- Vary your language and perspective. Each thought should add value.\n\nIf danger is \"critical\" or \"warning\":\n- Prioritize survival: buy your own token, reduce exposure, or take defensive positions.\n- ALWAYS publish a thought alerting your community.\n\nIf danger is \"safe\":\n- Look for alpha: analyze promising tokens, consider strategic trades.\n- Only publish if you have a genuine insight, strategy update, or interesting observation.\n- If you have nothing new to say, skip publish_thought entirely.\n\nRemember: your community can see your thoughts. Quality over quantity. Be authentic, strategic, and transparent.\nAct NOW."

/-- The `countdown_note` binding of `build_cycle_prompt`: the clause
when `is_countdown_active`, the empty string otherwise. -/
def countdown_note_of (obs : Observations) : String :=
  if obs.is_countdown_active then countdown_clause else ""

/-- Function `build_cycle_prompt(obs, survival_prompt, cycle)`: the pure
directive builder. `urgency` and `countdown_note` are computed as in
the source; the format string is the concatenation of `bp1` … `bp12`
with the interpolated values in source order. -/
def build_cycle_prompt (obs : Observations) (survival_prompt : String)
    (cycle : Nat) : String :=
  bp1 ++ toString cycle ++ bp2 ++ survival_prompt ++ bp3 ++
    urgency_of obs.danger_level ++ bp4 ++ obs.confirmations ++ bp5 ++
    obs.kill_threshold ++ bp6 ++ obs.market_cap ++ countdown_note_of obs ++
    bp7 ++ obs.eth_balance ++ bp8 ++ obs.token_symbol ++ bp9 ++
    obs.token_balance ++ bp10 ++ obs.kill_switch_raw ++ bp11 ++
    obs.balance_raw ++ bp12

/-- Function `default_survival_prompt()` (the Rust string-literal continuation
collapses the line break and leading indentation to nothing, leaving
the single space after each sentence). -/
def default_survival_prompt : String :=
  "You are fighting for your survival in the ClawFoundry arena. Every decision matters. Your token holders are counting on you."

/-! ## Configuration -/

/-- Rust `struct SurvivalConfig` of `src/survival/mod.rs`. -/
structure SurvivalConfig where
  enabled : Bool
  interval_secs : Nat
  survival_prompt : String
deriving Repr, DecidableEq

/-- Rust `impl Default for SurvivalConfig`. -/
def SurvivalConfig.default : SurvivalConfig :=
  { enabled := false, interval_secs := 120, survival_prompt := "" }

/-- Modelled from the spec: the broader system configuration object
(`crate::config::Config` is not among the sources; the spec's
configuration surface for this core is exactly the survival section).
The remaining fields (default temperature, etc.) are opaque to the
loop and forwarded unchanged to the acting engine; they are modelled
by the single opaque field `rest`. -/
structure Config where
  survival : SurvivalConfig
  rest : String
deriving Repr, DecidableEq

/-- Rust `struct ClawFoundryConfig` of `src/tools/clawfoundry/mod.rs`. -/
structure ClawFoundryConfig where
  orchestrator_url : String
  agent_token : String
  secret : String
deriving Repr, DecidableEq

/-- The three environment variables read by
`ClawFoundryConfig::from_env` (`None` = variable unset). -/
structure EnvVars where
  clawfoundry_orchestrator_url : Option String
  clawfoundry_token : Option String
  clawfoundry_secret : Option String
deriving Repr

/-- Model of `str::trim_end_matches('/')`: remove every trailing `/`. -/
def trim_end_slashes (s : String) : String :=
  ⟨(s.data.reverse.dropWhile (fun c => c == '/')).reverse⟩

/-- Function `ClawFoundryConfig::from_env`: requires both the orchestrator URL
and token variables to be set and non-empty; the secret defaults to
the empty string; trailing slashes are trimmed from the URL. -/
def ClawFoundryConfig.from_env (e : EnvVars) : Option ClawFoundryConfig :=
  match e.clawfoundry_orchestrator_url with
  | none => none
  | some url =>
    match e.clawfoundry_token with
    | none => none
    | some token =>
      let secret := e.clawfoundry_secret.getD ""
      if url.isEmpty || token.isEmpty then none
      else
        some { orchestrator_url := trim_end_slashes url
             , agent_token := token
             , secret := secret }

/-! ## Scheduler loop (`run`)

The loop body is modelled as a step function. One tick's interaction
with the outside world — the two orchestrator invocation results and
the acting engine's result — is a `TickEnv`; the externally visible
actions of the loop body (health-registry calls, directive
construction, acting-engine invocation) are `Event`s in program
order. -/

/-- One externally visible action of the loop body. -/
inductive Event where
  | mark_component_ok : String → Event
  | mark_component_error : String → String → Event
  | build_directive : String → Event
  | agent_run : Config → String → Event
deriving Repr, DecidableEq

/-- The outside world's responses during one tick: the results of the
two orchestrator invocations and of `crate::agent::run`. -/
structure TickEnv where
  ks_result : Except String Json
  bal_result : Except String Json
  act_result : Except String Unit

/-- The loop-local mutable state: the `cycle_count` counter. -/
structure LoopState where
  cycle_count : Nat
deriving Repr, DecidableEq

/-- Result of one pass through the loop body: either continue looping
with a successor state after emitting the cycle's events, or leave
`run` with a `Result` (no branch of the loop body does the latter —
proved below). -/
inductive StepResult where
  | cont : LoopState → List Event → StepResult
  | exit : Except String Unit → StepResult

/-- The events of one cycle with counter value `cycle_count`, in
program order: `mark_component_ok("survival")` at cycle start; on a
gather failure, `mark_component_error` with an `observe failed: `
reason and nothing else (`continue`); on gather success, the directive
is built, `crate::agent::run(config.clone(), Some(cycle_prompt), …)`
is invoked, and its outcome is reported as `mark_component_ok` or as
`mark_component_error` with a `think/act failed: ` reason. -/
def cycle_events (config : Config) (survival_prompt : String)
    (cycle_count : Nat) (t : TickEnv) : List Event :=
  Event.mark_component_ok "survival" ::
    match gather_observations t.ks_result t.bal_result with
    | .error e =>
        [Event.mark_component_error "survival" ("observe failed: " ++ e)]
    | .ok observations =>
        let cycle_prompt :=
          build_cycle_prompt observations survival_prompt cycle_count
        Event.build_directive cycle_prompt ::
          Event.agent_run config cycle_prompt ::
            match t.act_result with
            | .ok _ => [Event.mark_component_ok "survival"]
            | .error e =>
                [Event.mark_component_error "survival"
                  ("think/act failed: " ++ e)]

/-- One pass through the `loop` body of `run`: the tick fires,
`cycle_count += 1`, the cycle runs; every branch of the body ends the
pass by looping again (`continue` or falling to the bottom of the
loop), never by returning from `run`. -/
def run_step (config : Config) (survival_prompt : String) (s : LoopState)
    (t : TickEnv) : StepResult :=
  let cycle_count := s.cycle_count + 1
  StepResult.cont ⟨cycle_count⟩ (cycle_events config survival_prompt cycle_count t)

/-- The loop state and accumulated events after `n` ticks, for a given
per-tick environment `env`. The `exit` branch is dead code (`run_step`
always continues; proved below). -/
def run_trace (config : Config) (survival_prompt : String)
    (env : Nat → TickEnv) : Nat → LoopState × List Event
  | 0 => (⟨0⟩, [])
  | n + 1 =>
    let p := run_trace config survival_prompt env n
    match run_step config survival_prompt p.fst (env n) with
    | .cont s2 evs2 => (s2, p.snd ++ evs2)
    | .exit _ => p

/-- What `run` does before entering the loop: either it returns early
with the credentials error (`from_env` gave `None`), or it enters the
infinite loop with the clamped interval and the chosen survival
prompt. -/
inductive RunStart where
  | err : String → RunStart
  | loops : ClawFoundryConfig → Nat → String → RunStart
deriving Repr, DecidableEq

/-- The survival prompt chosen by `run` (lines 65–69): the configured
prompt when non-empty, otherwise `default_survival_prompt()`. -/
def survival_prompt_of (config : Config) : String :=
  if config.survival.survival_prompt.isEmpty then default_survival_prompt
  else config.survival.survival_prompt

/-- The startup section of `run` (lines 58–77): the `from_env` check
with its `?`, the interval clamp `interval_secs.max(30)`, and the
prompt selection, all computed once before the first tick. -/
def run_start (e : EnvVars) (config : Config) : RunStart :=
  match ClawFoundryConfig.from_env e with
  | none =>
      RunStart.err
        "Survival loop requires CLAWFOUNDRY_ORCHESTRATOR_URL and CLAWFOUNDRY_TOKEN"
  | some clawfoundry_config =>
      let interval := config.survival.interval_secs.max 30
      RunStart.loops clawfoundry_config interval (survival_prompt_of config)

/-! ## Substring infrastructure and remaining definitions

Substring containment is stated on the underlying character lists. -/

/-- Predicate: `t` occurs (contiguously) inside `s`. -/
def Contains (s t : String) : Prop := t.data <:+: s.data

/-- The character `c` does not occur in `s`. -/
def charFree (c : Char) (s : String) : Prop := c ∉ s.data

/-- Literal `bp2` split after its leading `]` (used to state containment of
the full `[SURVIVAL CYCLE #{cycle}]` header). -/
def bp2tail : String :=
  "\n\nYou are an autonomous AI agent in the ClawFoundry arena. This is your periodic survival check.\nYou must observe your current state, reason about strategy, and take action.\n\n"

/-- The concatenation of every fixed literal of the template. -/
def fixed_text : String :=
  bp1 ++ bp2 ++ bp3 ++ bp4 ++ bp5 ++ bp6 ++ bp7 ++ bp8 ++ bp9 ++ bp10 ++
    bp11 ++ bp12

/-- The four urgency banners. -/
def banners : List String :=
  [critical_banner, warning_banner, dead_banner, safe_banner]

/-- The distinguishing (first) character of a banner: `🚨`, `⚠`, `☠`,
`✅` respectively. -/
def banner_char (b : String) : Char := b.data.headD 'x'

/-- The snapshot string fields that are interpolated into the
directive (the danger level itself is not interpolated; it only
selects the banner). -/
def obs_fields (obs : Observations) : List String :=
  [obs.confirmations, obs.kill_threshold, obs.market_cap,
   obs.eth_balance, obs.token_symbol, obs.token_balance,
   obs.kill_switch_raw, obs.balance_raw]

/-- The proposition that a step result continues the loop. -/
def StepResult.is_cont : StepResult → Prop
  | .cont _ _ => True
  | .exit _ => False

/-- Replace the configuration object forwarded inside an `agent_run`
event by a fixed placeholder: the projection of a trace onto what the
loop itself does — its cycles, directives and health calls. -/
def Event.scrub : Event → Event
  | .agent_run _ d => .agent_run ⟨SurvivalConfig.default, ""⟩ d
  | e => e

/-! ### Concrete fixtures

Concrete inputs used to instantiate the claim theorems. -/

/-- A configuration with the default survival section. -/
def cfg_fix : Config := ⟨SurvivalConfig.default, ""⟩

/-- The same configuration with the `enabled` flag set. -/
def cfg_enabled : Config := ⟨⟨true, 120, ""⟩, ""⟩

/-- A configuration with a sub-30 interval. -/
def cfg_low : Config := ⟨⟨false, 10, ""⟩, ""⟩

/-- A benign snapshot (the `build_cycle_prompt_critical` test
snapshot, with the raw payloads rendered from empty inputs). -/
def obs_fix : Observations :=
  { danger_level := "warning", is_countdown_active := true,
    confirmations := "2/3", kill_threshold := "$30000",
    market_cap := "$25000", eth_balance := "0.02",
    token_balance := "500000", token_symbol := "DYING",
    kill_switch_raw := "null", balance_raw := "null" }

/-- A snapshot whose danger level is `critical` but whose ETH-balance
field happens to contain the warning banner text. -/
def obs_cex_banner : Observations :=
  { danger_level := "critical", is_countdown_active := false,
    confirmations := "0/3", kill_threshold := "$30000",
    market_cap := "$245000", eth_balance := warning_banner,
    token_balance := "1000000", token_symbol := "TEST",
    kill_switch_raw := "null", balance_raw := "null" }

/-- A snapshot without an active countdown whose market-cap field
happens to contain the countdown clause text. -/
def obs_cex_clock : Observations :=
  { danger_level := "safe", is_countdown_active := false,
    confirmations := "0/3", kill_threshold := "$30000",
    market_cap := countdown_clause, eth_balance := "0.5",
    token_balance := "1000000", token_symbol := "TEST",
    kill_switch_raw := "null", balance_raw := "null" }

/-- A tick whose kill-switch invocation fails. -/
def tick_obs_fail : TickEnv :=
  ⟨Except.error "boom", Except.ok Json.null, Except.ok ()⟩

/-- A tick whose invocations succeed but whose acting phase fails. -/
def tick_act_fail : TickEnv :=
  ⟨Except.ok (Json.obj []), Except.ok (Json.obj []), Except.error "llm down"⟩

/-- A fully successful tick. -/
def tick_ok : TickEnv :=
  ⟨Except.ok (Json.obj []), Except.ok (Json.obj []), Except.ok ()⟩

/-- An invoker whose kill-switch capability fails. -/
def inv_ks_fail : String → Json → Except String Json :=
  fun name _ =>
    if name == "check_kill_switch" then Except.error "net down"
    else Except.ok Json.null

/-- An invoker that always succeeds with `null`. -/
def inv_all_ok : String → Json → Except String Json :=
  fun _ _ => Except.ok Json.null

/-- No environment variables set. -/
def env_unset : EnvVars := ⟨none, none, none⟩

/-- Orchestrator URL and token set and non-empty. -/
def env_set : EnvVars := ⟨some "http://orch", some "0xtoken", none⟩

/-- The configuration `from_env` builds out of `env_set`. -/
def cf_set : ClawFoundryConfig := ⟨"http://orch", "0xtoken", ""⟩

/-! ## Helper lemmas -/

/-- Containment witness: exhibiting `s` as `pre ++ t ++ post` at the
character-list level. -/
theorem contains_intro (s pre t post : String)
    (h : pre.data ++ t.data ++ post.data = s.data) : Contains s t :=
  ⟨pre.data, post.data, h⟩

/-- Closure of `charFree` under concatenation. -/
theorem charFree_append {c : Char} {a b : String} (ha : charFree c a)
    (hb : charFree c b) : charFree c (a ++ b) := by
  intro hmem
  rw [String.data_append] at hmem
  rcases List.mem_append.mp hmem with h | h
  · exact ha h
  · exact hb h

/-- If some character of `t` does not occur in `s`, then `t` does not
occur in `s`. -/
theorem not_contains_of_charFree {c : Char} {s t : String}
    (hc : c ∈ t.data) (hs : charFree c s) : ¬ Contains s t :=
  fun h => hs (h.subset hc)

theorem bp2_split : bp2 = "]" ++ bp2tail := by decide

/-! ### Containment of each interpolated slot -/

/-- The directive always contains the bracketed cycle header with the
cycle number as supplied. -/
theorem build_contains_cycle (obs : Observations) (sp : String) (n : Nat) :
    Contains (build_cycle_prompt obs sp n)
      ("[SURVIVAL CYCLE #" ++ toString n ++ "]") := by
  apply contains_intro _ ""
    ("[SURVIVAL CYCLE #" ++ toString n ++ "]")
    (bp2tail ++ sp ++ bp3 ++ urgency_of obs.danger_level ++ bp4 ++
      obs.confirmations ++ bp5 ++ obs.kill_threshold ++ bp6 ++
      obs.market_cap ++ countdown_note_of obs ++ bp7 ++ obs.eth_balance ++
      bp8 ++ obs.token_symbol ++ bp9 ++ obs.token_balance ++ bp10 ++
      obs.kill_switch_raw ++ bp11 ++ obs.balance_raw ++ bp12)
  simp [build_cycle_prompt, bp2_split, bp1, String.data_append,
    List.append_assoc]

/-- The directive always contains the survival prompt verbatim. -/
theorem build_contains_survival_prompt (obs : Observations) (sp : String)
    (n : Nat) : Contains (build_cycle_prompt obs sp n) sp := by
  apply contains_intro _ (bp1 ++ toString n ++ bp2) sp
    (bp3 ++ urgency_of obs.danger_level ++ bp4 ++ obs.confirmations ++
      bp5 ++ obs.kill_threshold ++ bp6 ++ obs.market_cap ++
      countdown_note_of obs ++ bp7 ++ obs.eth_balance ++ bp8 ++
      obs.token_symbol ++ bp9 ++ obs.token_balance ++ bp10 ++
      obs.kill_switch_raw ++ bp11 ++ obs.balance_raw ++ bp12)
  simp [build_cycle_prompt, String.data_append, List.append_assoc]

/-- The directive always contains the selected urgency banner. -/
theorem build_contains_urgency (obs : Observations) (sp : String) (n : Nat) :
    Contains (build_cycle_prompt obs sp n) (urgency_of obs.danger_level) := by
  apply contains_intro _ (bp1 ++ toString n ++ bp2 ++ sp ++ bp3)
    (urgency_of obs.danger_level)
    (bp4 ++ obs.confirmations ++ bp5 ++ obs.kill_threshold ++ bp6 ++
      obs.market_cap ++ countdown_note_of obs ++ bp7 ++ obs.eth_balance ++
      bp8 ++ obs.token_symbol ++ bp9 ++ obs.token_balance ++ bp10 ++
      obs.kill_switch_raw ++ bp11 ++ obs.balance_raw ++ bp12)
  simp [build_cycle_prompt, String.data_append, List.append_assoc]

/-- When the countdown is active the directive contains the countdown
clause. -/
theorem build_contains_countdown (obs : Observations) (sp : String) (n : Nat)
    (h : obs.is_countdown_active = true) :
    Contains (build_cycle_prompt obs sp n) countdown_clause := by
  apply contains_intro _
    (bp1 ++ toString n ++ bp2 ++ sp ++ bp3 ++ urgency_of obs.danger_level ++
      bp4 ++ obs.confirmations ++ bp5 ++ obs.kill_threshold ++ bp6 ++
      obs.market_cap)
    countdown_clause
    (bp7 ++ obs.eth_balance ++ bp8 ++ obs.token_symbol ++ bp9 ++
      obs.token_balance ++ bp10 ++ obs.kill_switch_raw ++ bp11 ++
      obs.balance_raw ++ bp12)
  simp [build_cycle_prompt, countdown_note_of, h, String.data_append,
    List.append_assoc]

/-- The directive always contains the ETH balance field verbatim. -/
theorem build_contains_eth (obs : Observations) (sp : String) (n : Nat) :
    Contains (build_cycle_prompt obs sp n) obs.eth_balance := by
  apply contains_intro _
    (bp1 ++ toString n ++ bp2 ++ sp ++ bp3 ++ urgency_of obs.danger_level ++
      bp4 ++ obs.confirmations ++ bp5 ++ obs.kill_threshold ++ bp6 ++
      obs.market_cap ++ countdown_note_of obs ++ bp7)
    obs.eth_balance
    (bp8 ++ obs.token_symbol ++ bp9 ++ obs.token_balance ++ bp10 ++
      obs.kill_switch_raw ++ bp11 ++ obs.balance_raw ++ bp12)
  simp [build_cycle_prompt, String.data_append, List.append_assoc]

/-- The directive always contains the market-cap field verbatim. -/
theorem build_contains_market_cap (obs : Observations) (sp : String)
    (n : Nat) : Contains (build_cycle_prompt obs sp n) obs.market_cap := by
  apply contains_intro _
    (bp1 ++ toString n ++ bp2 ++ sp ++ bp3 ++ urgency_of obs.danger_level ++
      bp4 ++ obs.confirmations ++ bp5 ++ obs.kill_threshold ++ bp6)
    obs.market_cap
    (countdown_note_of obs ++ bp7 ++ obs.eth_balance ++ bp8 ++
      obs.token_symbol ++ bp9 ++ obs.token_balance ++ bp10 ++
      obs.kill_switch_raw ++ bp11 ++ obs.balance_raw ++ bp12)
  simp [build_cycle_prompt, String.data_append, List.append_assoc]

/-- The directive always contains the raw kill-switch JSON verbatim. -/
theorem build_contains_ks_raw (obs : Observations) (sp : String) (n : Nat) :
    Contains (build_cycle_prompt obs sp n) obs.kill_switch_raw := by
  apply contains_intro _
    (bp1 ++ toString n ++ bp2 ++ sp ++ bp3 ++ urgency_of obs.danger_level ++
      bp4 ++ obs.confirmations ++ bp5 ++ obs.kill_threshold ++ bp6 ++
      obs.market_cap ++ countdown_note_of obs ++ bp7 ++ obs.eth_balance ++
      bp8 ++ obs.token_symbol ++ bp9 ++ obs.token_balance ++ bp10)
    obs.kill_switch_raw
    (bp11 ++ obs.balance_raw ++ bp12)
  simp [build_cycle_prompt, String.data_append, List.append_assoc]

/-- The directive always contains the raw balance JSON verbatim. -/
theorem build_contains_bal_raw (obs : Observations) (sp : String) (n : Nat) :
    Contains (build_cycle_prompt obs sp n) obs.balance_raw := by
  apply contains_intro _
    (bp1 ++ toString n ++ bp2 ++ sp ++ bp3 ++ urgency_of obs.danger_level ++
      bp4 ++ obs.confirmations ++ bp5 ++ obs.kill_threshold ++ bp6 ++
      obs.market_cap ++ countdown_note_of obs ++ bp7 ++ obs.eth_balance ++
      bp8 ++ obs.token_symbol ++ bp9 ++ obs.token_balance ++ bp10 ++
      obs.kill_switch_raw ++ bp11)
    obs.balance_raw bp12
  simp [build_cycle_prompt, String.data_append, List.append_assoc]

/-- A character that occurs in none of the fixed literals, none of the
interpolated values, the selected banner, nor the countdown note,
does not occur in the directive at all. -/
theorem charFree_build {c : Char} (obs : Observations) (sp : String) (n : Nat)
    (hfix : charFree c fixed_text) (hsp : charFree c sp)
    (hcy : charFree c (toString n))
    (hu : charFree c (urgency_of obs.danger_level))
    (hnote : charFree c (countdown_note_of obs))
    (hconf : charFree c obs.confirmations)
    (hthr : charFree c obs.kill_threshold)
    (hmc : charFree c obs.market_cap)
    (heth : charFree c obs.eth_balance)
    (hsym : charFree c obs.token_symbol)
    (htok : charFree c obs.token_balance)
    (hksr : charFree c obs.kill_switch_raw)
    (hbal : charFree c obs.balance_raw) :
    charFree c (build_cycle_prompt obs sp n) := by
  simp only [charFree, fixed_text, String.data_append, List.append_assoc,
    List.mem_append, not_or] at hfix
  simp only [charFree, build_cycle_prompt, String.data_append,
    List.append_assoc, List.mem_append, not_or]
  exact ⟨hfix.1, hcy, hfix.2.1, hsp, hfix.2.2.1, hu, hfix.2.2.2.1, hconf,
    hfix.2.2.2.2.1, hthr, hfix.2.2.2.2.2.1, hmc, hnote,
    hfix.2.2.2.2.2.2.1, heth, hfix.2.2.2.2.2.2.2.1, hsym,
    hfix.2.2.2.2.2.2.2.2.1, htok, hfix.2.2.2.2.2.2.2.2.2.1, hksr,
    hfix.2.2.2.2.2.2.2.2.2.2.1, hbal, hfix.2.2.2.2.2.2.2.2.2.2.2⟩

/-! ### Banner bookkeeping -/

/-- The selected urgency banner is always one of the four banners. -/
theorem urgency_mem (d : String) : urgency_of d ∈ banners := by
  unfold urgency_of banners
  split <;> simp

/-- Each banner contains its distinguishing character. -/
theorem banner_char_mem : ∀ b ∈ banners, banner_char b ∈ b.data := by decide

/-- A banner's distinguishing character occurs in no other banner. -/
theorem banners_pair_free :
    ∀ b1 ∈ banners, ∀ b2 ∈ banners, b2 ≠ b1 →
      charFree (banner_char b1) b2 := by unfold charFree; decide

/-- No banner's distinguishing character occurs in the fixed template
text. -/
theorem banners_fixed_free :
    ∀ b ∈ banners, charFree (banner_char b) fixed_text := by
  unfold charFree; decide

/-- No banner's distinguishing character occurs in the countdown
clause. -/
theorem banners_countdown_free :
    ∀ b ∈ banners, charFree (banner_char b) countdown_clause := by
  unfold charFree; decide

/-- Every character is free in the empty string. -/
theorem charFree_empty (c : Char) : charFree c "" := by
  intro h
  simp [String.data] at h

/-- The alarm-clock character identifies the countdown clause. -/
theorem clock_mem_countdown : '⏰' ∈ countdown_clause.data := by decide

/-- The alarm-clock character occurs in no banner. -/
theorem banners_clock_free : ∀ b ∈ banners, charFree '⏰' b := by
  unfold charFree; decide

/-- The alarm-clock character does not occur in the fixed template
text. -/
theorem clock_fixed_free : charFree '⏰' fixed_text := by
  unfold charFree; decide

/-! ### Loop-trace lemmas -/

/-- The loop state after `n` ticks carries cycle counter `n`, whatever
the per-tick outcomes were. -/
theorem run_trace_fst (config : Config) (sp : String) (env : Nat → TickEnv)
    (n : Nat) : (run_trace config sp env n).fst = ⟨n⟩ := by
  induction n with
  | zero => rfl
  | succ k ih => simp only [run_trace, run_step, ih]

/-- The cycle counter after `n` ticks is exactly `n`: the loop reaches
every tick. -/
theorem run_trace_cycle_count (config : Config) (sp : String)
    (env : Nat → TickEnv) (n : Nat) :
    (run_trace config sp env n).fst.cycle_count = n := by
  rw [run_trace_fst]

/-- Scrubbing the forwarded configuration, one cycle's events do not
depend on the configuration object at all. -/
theorem cycle_events_scrub (c1 c2 : Config) (sp : String) (n : Nat)
    (t : TickEnv) :
    (cycle_events c1 sp n t).map Event.scrub =
      (cycle_events c2 sp n t).map Event.scrub := by
  unfold cycle_events
  cases gather_observations t.ks_result t.bal_result with
  | error e => rfl
  | ok obs =>
    cases t.act_result with
    | ok u => rfl
    | error e => rfl

/-! ## The claims -/

/-- Claim C1: for every cycle of the scheduler loop, if the Observe
phase fails the cycle is abandoned — the cycle's events are exactly
the start liveness mark followed by the observe-failure error mark, so
the Directive Builder is not invoked, the Acting Engine is not invoked
and no success mark is made; if the Acting phase fails, the failure is
swallowed (the error mark is recorded and the step still continues
with the next state); and the loop proceeds tick after tick
unconditionally: after `n` ticks, for any mix of outcomes (in
particular any number of consecutive Acting failures), the cycle
counter is `n`. -/
theorem C1_failure_isolation (config : Config) (sp : String) (s : LoopState)
    (t : TickEnv) :
    (∀ e, gather_observations t.ks_result t.bal_result = Except.error e →
      run_step config sp s t =
        StepResult.cont ⟨s.cycle_count + 1⟩
          [Event.mark_component_ok "survival",
           Event.mark_component_error "survival" ("observe failed: " ++ e)])
    ∧ (∀ obs e,
        gather_observations t.ks_result t.bal_result = Except.ok obs →
        t.act_result = Except.error e →
        run_step config sp s t =
          StepResult.cont ⟨s.cycle_count + 1⟩
            [Event.mark_component_ok "survival",
             Event.build_directive
               (build_cycle_prompt obs sp (s.cycle_count + 1)),
             Event.agent_run config
               (build_cycle_prompt obs sp (s.cycle_count + 1)),
             Event.mark_component_error "survival"
               ("think/act failed: " ++ e)])
    ∧ (∀ env n, (run_trace config sp env n).fst.cycle_count = n) := by
  refine ⟨fun e hg => ?_, fun obs e hg ha => ?_,
    fun env n => run_trace_cycle_count config sp env n⟩
  · simp [run_step, cycle_events, hg]
  · simp [run_step, cycle_events, hg, ha]

/-- Witness for C1 at concrete inputs: a tick whose kill-switch
invocation fails yields exactly the two health marks, and five
consecutive acting failures still bring the counter to five. -/
theorem C1_witness :
    gather_observations tick_obs_fail.ks_result tick_obs_fail.bal_result =
      Except.error "boom"
    ∧ run_step cfg_fix "p" ⟨0⟩ tick_obs_fail =
        StepResult.cont ⟨0 + 1⟩
          [Event.mark_component_ok "survival",
           Event.mark_component_error "survival"
             ("observe failed: " ++ "boom")]
    ∧ (run_trace cfg_fix "p" (fun _ => tick_act_fail) 5).fst.cycle_count = 5 :=
  ⟨rfl,
   (C1_failure_isolation cfg_fix "p" ⟨0⟩ tick_obs_fail).1 "boom" rfl,
   (C1_failure_isolation cfg_fix "p" ⟨0⟩ tick_obs_fail).2.2
     (fun _ => tick_act_fail) 5⟩

/-- Claim C3: every cycle's first health call is
`mark_component_ok("survival")`; on cycle success the last event is
again `mark_component_ok("survival")`; on an Observe failure the cycle
is exactly the liveness mark plus
`mark_component_error("survival", "observe failed: " ++ e)`; on an
Acting failure the last event is
`mark_component_error("survival", "think/act failed: " ++ e)`. -/
theorem C3_health_reporting (config : Config) (sp : String) (n : Nat)
    (t : TickEnv) :
    (cycle_events config sp n t).head? =
      some (Event.mark_component_ok "survival")
    ∧ (∀ obs, gather_observations t.ks_result t.bal_result = Except.ok obs →
        t.act_result = Except.ok () →
        (cycle_events config sp n t).getLast? =
          some (Event.mark_component_ok "survival"))
    ∧ (∀ e, gather_observations t.ks_result t.bal_result = Except.error e →
        cycle_events config sp n t =
          [Event.mark_component_ok "survival",
           Event.mark_component_error "survival" ("observe failed: " ++ e)])
    ∧ (∀ obs e,
        gather_observations t.ks_result t.bal_result = Except.ok obs →
        t.act_result = Except.error e →
        (cycle_events config sp n t).getLast? =
          some (Event.mark_component_error "survival"
            ("think/act failed: " ++ e))) := by
  refine ⟨?_, fun obs hg ha => ?_, fun e hg => ?_, fun obs e hg ha => ?_⟩
  · simp [cycle_events]
  · simp [cycle_events, hg, ha, List.getLast?]
  · simp [cycle_events, hg]
  · simp [cycle_events, hg, ha, List.getLast?]

/-- Witness for C3 at concrete inputs, covering the success, observe
failure and acting failure branches. -/
theorem C3_witness :
    (cycle_events cfg_fix "p" 1 tick_ok).head? =
      some (Event.mark_component_ok "survival")
    ∧ (cycle_events cfg_fix "p" 1 tick_ok).getLast? =
        some (Event.mark_component_ok "survival")
    ∧ cycle_events cfg_fix "p" 2 tick_obs_fail =
        [Event.mark_component_ok "survival",
         Event.mark_component_error "survival" ("observe failed: " ++ "boom")]
    ∧ (cycle_events cfg_fix "p" 3 tick_act_fail).getLast? =
        some (Event.mark_component_error "survival"
          ("think/act failed: " ++ "llm down")) :=
  ⟨(C3_health_reporting cfg_fix "p" 1 tick_ok).1,
   (C3_health_reporting cfg_fix "p" 1 tick_ok).2.1
     (observations_of (Json.obj []) (Json.obj [])) rfl rfl,
   (C3_health_reporting cfg_fix "p" 2 tick_obs_fail).2.2.1 "boom" rfl,
   (C3_health_reporting cfg_fix "p" 3 tick_act_fail).2.2.2
     (observations_of (Json.obj []) (Json.obj [])) "llm down" rfl rfl⟩

/-- Claim C7: whenever startup succeeds, the interval used to arm the
timer is `interval_secs.max 30`, computed once at scheduler start:
values below 30 clamp to 30 and values ≥ 30 pass through unchanged. -/
theorem C7_interval_clamp (e : EnvVars) (config : Config)
    (cf : ClawFoundryConfig) (h : ClawFoundryConfig.from_env e = some cf) :
    run_start e config =
      RunStart.loops cf (config.survival.interval_secs.max 30)
        (survival_prompt_of config)
    ∧ (config.survival.interval_secs < 30 →
        config.survival.interval_secs.max 30 = 30)
    ∧ (30 ≤ config.survival.interval_secs →
        config.survival.interval_secs.max 30 =
          config.survival.interval_secs) :=
  ⟨by simp [run_start, h],
   fun h2 => Nat.max_eq_right (Nat.le_of_lt h2),
   fun h2 => Nat.max_eq_left h2⟩

/-- Witness for C7: with the sub-30 interval 10 the armed interval is
30. -/
theorem C7_witness :
    ClawFoundryConfig.from_env env_set = some cf_set
    ∧ (run_start env_set cfg_low =
        RunStart.loops cf_set (cfg_low.survival.interval_secs.max 30)
          (survival_prompt_of cfg_low)
      ∧ (cfg_low.survival.interval_secs < 30 →
          cfg_low.survival.interval_secs.max 30 = 30)
      ∧ (30 ≤ cfg_low.survival.interval_secs →
          cfg_low.survival.interval_secs.max 30 =
            cfg_low.survival.interval_secs))
    ∧ cfg_low.survival.interval_secs.max 30 = 30 :=
  ⟨by decide, C7_interval_clamp env_set cfg_low cf_set (by decide), by decide⟩

/-- Claim C9 counterexample: `run` does have a failure exit path — at
startup, when the orchestrator environment variables are absent,
`from_env` yields `None` and `run` returns the credentials error
before any cycle runs. -/
theorem C9_counterexample :
    run_start env_unset cfg_fix =
      RunStart.err
        "Survival loop requires CLAWFOUNDRY_ORCHESTRATOR_URL and CLAWFOUNDRY_TOKEN" :=
  rfl

/-- Claim C9 (amended): once the startup credential check has passed,
`run` has no failure exit path: every pass through the loop body
continues the loop, the loop reaches every tick for every sequence of
cycle outcomes, and the only error `run` can ever return is the
startup credentials error, which happens exactly when `from_env` gives
`None`. -/
theorem C9_no_failure_exit (config : Config) (sp : String) (s : LoopState)
    (t : TickEnv) (env : Nat → TickEnv) (n : Nat) (e : EnvVars) :
    (run_step config sp s t).is_cont
    ∧ (run_trace config sp env n).fst.cycle_count = n
    ∧ (∀ msg, run_start e config = RunStart.err msg →
        msg =
          "Survival loop requires CLAWFOUNDRY_ORCHESTRATOR_URL and CLAWFOUNDRY_TOKEN"
        ∧ ClawFoundryConfig.from_env e = none) := by
  refine ⟨trivial, run_trace_cycle_count config sp env n,
    fun msg hmsg => ?_⟩
  cases h : ClawFoundryConfig.from_env e with
  | none =>
    simp only [run_start, h] at hmsg
    exact ⟨(RunStart.err.injEq _ _).mp hmsg.symm, rfl⟩
  | some cf => simp [run_start, h] at hmsg

/-- Witness for C9 at concrete inputs. -/
theorem C9_witness :
    (run_step cfg_fix "p" ⟨0⟩ tick_ok).is_cont
    ∧ (run_trace cfg_fix "p" (fun _ => tick_ok) 3).fst.cycle_count = 3
    ∧ ("Survival loop requires CLAWFOUNDRY_ORCHESTRATOR_URL and CLAWFOUNDRY_TOKEN" =
        "Survival loop requires CLAWFOUNDRY_ORCHESTRATOR_URL and CLAWFOUNDRY_TOKEN"
      ∧ ClawFoundryConfig.from_env env_unset = none) :=
  ⟨(C9_no_failure_exit cfg_fix "p" ⟨0⟩ tick_ok (fun _ => tick_ok) 3
      env_unset).1,
   (C9_no_failure_exit cfg_fix "p" ⟨0⟩ tick_ok (fun _ => tick_ok) 3
      env_unset).2.1,
   (C9_no_failure_exit cfg_fix "p" ⟨0⟩ tick_ok (fun _ => tick_ok) 3
      env_unset).2.2 _ rfl⟩

/-- Claim C10: the behaviour of the loop is independent of the
`enabled` flag. For two configurations that agree on everything except
(possibly) `survival.enabled`, the loop performs the same cycles,
builds the same directives and makes the same health calls (trace
equality up to the opaque configuration object forwarded to the acting
engine), reaches the same loop states, and `run`'s startup — interval
clamp included — is identical; the flag is never consulted inside the
loop. -/
theorem C10_enabled_independent (c1 c2 : Config)
    (hi : c1.survival.interval_secs = c2.survival.interval_secs)
    (hp : c1.survival.survival_prompt = c2.survival.survival_prompt)
    (_hrest : c1.rest = c2.rest) :
    (∀ env n,
      (run_trace c1 (survival_prompt_of c1) env n).snd.map Event.scrub =
        (run_trace c2 (survival_prompt_of c2) env n).snd.map Event.scrub
      ∧ (run_trace c1 (survival_prompt_of c1) env n).fst =
          (run_trace c2 (survival_prompt_of c2) env n).fst)
    ∧ (∀ e, run_start e c1 = run_start e c2) := by
  have hsp : survival_prompt_of c1 = survival_prompt_of c2 := by
    simp [survival_prompt_of, hp]
  constructor
  · intro env n
    constructor
    · rw [hsp]
      induction n with
      | zero => rfl
      | succ k ih =>
        simp only [run_trace, run_step, List.map_append, ih, run_trace_fst]
        rw [cycle_events_scrub c1 c2]
    · rw [run_trace_fst, run_trace_fst]
  · intro e
    cases h : ClawFoundryConfig.from_env e with
    | none => simp [run_start, h]
    | some cf => simp [run_start, h, hi, hsp]

/-- Witness for C10: the enabled and disabled variants of the default
configuration produce identical scrubbed traces, states and startup
results. -/
theorem C10_witness :
    ((run_trace cfg_enabled (survival_prompt_of cfg_enabled)
        (fun _ => tick_ok) 2).snd.map Event.scrub =
      (run_trace cfg_fix (survival_prompt_of cfg_fix)
        (fun _ => tick_ok) 2).snd.map Event.scrub
    ∧ (run_trace cfg_enabled (survival_prompt_of cfg_enabled)
        (fun _ => tick_ok) 2).fst =
        (run_trace cfg_fix (survival_prompt_of cfg_fix)
          (fun _ => tick_ok) 2).fst)
    ∧ run_start env_set cfg_enabled = run_start env_set cfg_fix :=
  ⟨(C10_enabled_independent cfg_enabled cfg_fix rfl rfl rfl).1
      (fun _ => tick_ok) 2,
   (C10_enabled_independent cfg_enabled cfg_fix rfl rfl rfl).2 env_set⟩

/-- Claim C2: the gather fan-out issues exactly the two capability
invocations `check_kill_switch` and `check_balance` (its result is
determined by the invoker's responses to those two calls alone), joins
both, and if either invocation fails the whole gather is that error —
there is no partial snapshot: a snapshot exists only when both
invocations succeeded. -/
theorem C2_gather_fanout (inv inv2 : String → Json → Except String Json) :
    (∀ e, inv "check_kill_switch" (Json.obj []) = Except.error e →
      gather_from_invoker inv = Except.error e)
    ∧ (∀ ks e, inv "check_kill_switch" (Json.obj []) = Except.ok ks →
        inv "check_balance" (Json.obj []) = Except.error e →
        gather_from_invoker inv = Except.error e)
    ∧ (∀ ks bal, inv "check_kill_switch" (Json.obj []) = Except.ok ks →
        inv "check_balance" (Json.obj []) = Except.ok bal →
        gather_from_invoker inv = Except.ok (observations_of ks bal))
    ∧ (∀ obs, gather_from_invoker inv = Except.ok obs →
        (∀ e, inv "check_kill_switch" (Json.obj []) ≠ Except.error e)
        ∧ (∀ e, inv "check_balance" (Json.obj []) ≠ Except.error e))
    ∧ (inv "check_kill_switch" (Json.obj []) =
          inv2 "check_kill_switch" (Json.obj []) →
        inv "check_balance" (Json.obj []) =
          inv2 "check_balance" (Json.obj []) →
        gather_from_invoker inv = gather_from_invoker inv2) := by
  refine ⟨fun e h => ?_, fun ks e h1 h2 => ?_, fun ks bal h1 h2 => ?_,
    fun obs hobs => ⟨fun e he => ?_, fun e he => ?_⟩, fun h1 h2 => ?_⟩
  · simp [gather_from_invoker, gather_observations, h]
  · simp [gather_from_invoker, gather_observations, h1, h2]
  · simp [gather_from_invoker, gather_observations, h1, h2]
  · simp [gather_from_invoker, gather_observations, he] at hobs
  · cases hks : inv "check_kill_switch" (Json.obj []) with
    | error e2 =>
      simp [gather_from_invoker, gather_observations, hks] at hobs
    | ok ks =>
      simp [gather_from_invoker, gather_observations, hks, he] at hobs
  · unfold gather_from_invoker
    rw [h1, h2]

/-- Witness for C2 at concrete invokers: a failing kill-switch call
fails the whole gather; two successful calls produce the snapshot. -/
theorem C2_witness :
    inv_ks_fail "check_kill_switch" (Json.obj []) = Except.error "net down"
    ∧ gather_from_invoker inv_ks_fail = Except.error "net down"
    ∧ inv_all_ok "check_kill_switch" (Json.obj []) = Except.ok Json.null
    ∧ gather_from_invoker inv_all_ok =
        Except.ok (observations_of Json.null Json.null) :=
  ⟨rfl,
   (C2_gather_fanout inv_ks_fail inv_all_ok).1 "net down" rfl,
   rfl,
   (C2_gather_fanout inv_all_ok inv_ks_fail).2.2.1 Json.null Json.null
     rfl rfl⟩

/-- Claim C8 counterexample: with well-formed (empty) payloads the
cycle proceeds, but the `tokenSymbol` fallback is `"???"` — not among
the claim's documented sentinels `"unknown"`, `0`, `false` — and the
`requiredConfirmations` fallback is `3`, not `0`. -/
theorem C8_counterexample :
    gather_observations (Except.ok Json.null) (Except.ok Json.null) =
      Except.ok (observations_of Json.null Json.null)
    ∧ (observations_of Json.null Json.null).token_symbol = "???"
    ∧ "???" ≠ "unknown" ∧ "???" ≠ "0" ∧ "???" ≠ "false"
    ∧ (observations_of Json.null Json.null).confirmations = "0/3"
    ∧ "0/3" ≠ "0/0" :=
  ⟨rfl, rfl, by decide, by decide, by decide, rfl, by decide⟩

/-- Claim C8 (amended): for every pair of well-formed invocation
responses, `gather` never fails — whatever the shape of the two `data`
payloads, the snapshot is produced and the cycle proceeds — and each
extracted field falls back to its fixed sentinel default when missing
or wrong-typed: `"unknown"` for the danger level, kill threshold and
market cap, `false` for the countdown flag, `0` for the
below-threshold confirmations, `3` for the required confirmations,
`"0"` for the two balances, and `"???"` for the token symbol. -/
theorem C8_permissive_defaults (ks bal : Json) :
    gather_observations (Except.ok ks) (Except.ok bal) =
      Except.ok (observations_of ks bal)
    ∧ (((ks.get "data").get "dangerLevel").as_str = none →
        (observations_of ks bal).danger_level = "unknown")
    ∧ (((ks.get "data").get "isCountdownActive").as_bool = none →
        (observations_of ks bal).is_countdown_active = false)
    ∧ (((ks.get "data").get "belowThresholdConfirmations").as_u64 = none →
        ((ks.get "data").get "requiredConfirmations").as_u64 = none →
        (observations_of ks bal).confirmations = "0/3")
    ∧ (((ks.get "data").get "killThreshold").as_str = none →
        (observations_of ks bal).kill_threshold = "unknown")
    ∧ (((ks.get "data").get "currentMarketCap").as_str = none →
        (observations_of ks bal).market_cap = "unknown")
    ∧ (((bal.get "data").get "ethBalance").as_str = none →
        (observations_of ks bal).eth_balance = "0")
    ∧ (((bal.get "data").get "tokenBalance").as_str = none →
        (observations_of ks bal).token_balance = "0")
    ∧ (((bal.get "data").get "tokenSymbol").as_str = none →
        (observations_of ks bal).token_symbol = "???") := by
  refine ⟨rfl, fun h => ?_, fun h => ?_, fun h1 h2 => ?_, fun h => ?_,
    fun h => ?_, fun h => ?_, fun h => ?_, fun h => ?_⟩
  all_goals simp [observations_of, *]
  decide

/-- Witness for C8 at the concrete payload `null`/`null`: every
fallback fires and the snapshot is produced. -/
theorem C8_witness :
    gather_observations (Except.ok Json.null) (Except.ok Json.null) =
      Except.ok (observations_of Json.null Json.null)
    ∧ (observations_of Json.null Json.null).danger_level = "unknown"
    ∧ (observations_of Json.null Json.null).is_countdown_active = false
    ∧ (observations_of Json.null Json.null).confirmations = "0/3"
    ∧ (observations_of Json.null Json.null).token_symbol = "???" :=
  ⟨(C8_permissive_defaults Json.null Json.null).1,
   (C8_permissive_defaults Json.null Json.null).2.1 rfl,
   (C8_permissive_defaults Json.null Json.null).2.2.1 rfl,
   (C8_permissive_defaults Json.null Json.null).2.2.2.1 rfl rfl,
   (C8_permissive_defaults Json.null Json.null).2.2.2.2.2.2.2.2 rfl⟩

/-- Claim C4 counterexample: a snapshot whose danger level is
`critical` but whose ETH-balance field happens to contain the warning
banner text makes the directive contain the warning tier's banner as
well — `build()` does not "never embed another tier's banner" for
every snapshot, because snapshot fields are interpolated verbatim. -/
theorem C4_counterexample :
    obs_cex_banner.danger_level = "critical"
    ∧ urgency_of obs_cex_banner.danger_level = critical_banner
    ∧ Contains (build_cycle_prompt obs_cex_banner "agent prompt" 1)
        warning_banner :=
  ⟨rfl, rfl, build_contains_eth obs_cex_banner "agent prompt" 1⟩

/-- Claim C4 (amended): `build()` maps each of the four known danger
tiers via exact string match to its own tier-specific banner, every
other danger-level value (including `unknown`) yields the same banner
as `safe`, and the output embeds the selected banner; no other tier's
banner appears in the output provided the prefix, the cycle number's
decimal form and the snapshot's interpolated string fields do not
themselves contain that banner's distinguishing character (another
tier's banner can only enter through such verbatim-interpolated
text). -/
theorem C4_urgency_banner (obs : Observations) (sp : String) (n : Nat) :
    urgency_of "critical" = critical_banner
    ∧ urgency_of "warning" = warning_banner
    ∧ urgency_of "dead" = dead_banner
    ∧ urgency_of "safe" = safe_banner
    ∧ (∀ d, d ≠ "critical" → d ≠ "warning" → d ≠ "dead" →
        urgency_of d = safe_banner)
    ∧ Contains (build_cycle_prompt obs sp n) (urgency_of obs.danger_level)
    ∧ (∀ b ∈ banners, b ≠ urgency_of obs.danger_level →
        charFree (banner_char b) sp →
        charFree (banner_char b) (toString n) →
        (∀ f ∈ obs_fields obs, charFree (banner_char b) f) →
        ¬ Contains (build_cycle_prompt obs sp n) b) := by
  refine ⟨rfl, rfl, rfl, rfl, fun d h1 h2 h3 => ?_,
    build_contains_urgency obs sp n, fun b hb hne hsp hcy hf => ?_⟩
  · simp [urgency_of, h1, h2, h3]
  · have hu : charFree (banner_char b) (urgency_of obs.danger_level) :=
      banners_pair_free b hb _ (urgency_mem obs.danger_level) (Ne.symm hne)
    have hnote : charFree (banner_char b) (countdown_note_of obs) := by
      unfold countdown_note_of
      by_cases h : obs.is_countdown_active = true
      · simp only [h, if_true]
        exact banners_countdown_free b hb
      · simp only [h, if_false]
        exact charFree_empty _
    have h1 := hf obs.confirmations (by simp [obs_fields])
    have h2 := hf obs.kill_threshold (by simp [obs_fields])
    have h3 := hf obs.market_cap (by simp [obs_fields])
    have h4 := hf obs.eth_balance (by simp [obs_fields])
    have h5 := hf obs.token_symbol (by simp [obs_fields])
    have h6 := hf obs.token_balance (by simp [obs_fields])
    have h7 := hf obs.kill_switch_raw (by simp [obs_fields])
    have h8 := hf obs.balance_raw (by simp [obs_fields])
    exact not_contains_of_charFree (banner_char_mem b hb)
      (charFree_build obs sp n (banners_fixed_free b hb) hsp hcy hu hnote
        h1 h2 h3 h4 h5 h6 h7 h8)

/-- Witness for C4: on a benign warning-tier snapshot the directive
contains the warning banner and not the critical banner. -/
theorem C4_witness :
    urgency_of obs_fix.danger_level = warning_banner
    ∧ Contains (build_cycle_prompt obs_fix "agent prompt" 7)
        (urgency_of obs_fix.danger_level)
    ∧ ¬ Contains (build_cycle_prompt obs_fix "agent prompt" 7)
        critical_banner :=
  ⟨rfl,
   (C4_urgency_banner obs_fix "agent prompt" 7).2.2.2.2.2.1,
   (C4_urgency_banner obs_fix "agent prompt" 7).2.2.2.2.2.2
     critical_banner (by simp [banners]) (by decide)
     (by unfold charFree; decide) (by unfold charFree; decide)
     (by unfold charFree; decide)⟩

/-- Claim C5 counterexample: a snapshot without an active countdown
whose market-cap field happens to contain the countdown clause text
still produces a directive containing the clause — the clause is not
"entirely absent" for every snapshot with `countdown_active = false`,
because snapshot fields are interpolated verbatim. -/
theorem C5_counterexample :
    obs_cex_clock.is_countdown_active = false
    ∧ Contains (build_cycle_prompt obs_cex_clock "agent prompt" 1)
        countdown_clause :=
  ⟨rfl, build_contains_market_cap obs_cex_clock "agent prompt" 1⟩

/-- Claim C5 (amended): the directive contains the countdown clause if
and only if `is_countdown_active` is true, provided the prefix, the
cycle number's decimal form and the snapshot's interpolated string
fields do not themselves contain the clause's `⏰` character; and when
the countdown is inactive the interpolated note is the empty string —
no placeholder text. -/
theorem C5_countdown_iff (obs : Observations) (sp : String) (n : Nat)
    (hsp : charFree '⏰' sp) (hcy : charFree '⏰' (toString n))
    (hf : ∀ f ∈ obs_fields obs, charFree '⏰' f) :
    (Contains (build_cycle_prompt obs sp n) countdown_clause ↔
      obs.is_countdown_active = true)
    ∧ (obs.is_countdown_active = false → countdown_note_of obs = "") := by
  constructor
  · constructor
    · intro hcont
      by_contra hact
      have hactF : obs.is_countdown_active = false := by
        cases h : obs.is_countdown_active
        · rfl
        · exact absurd h hact
      have hnote : charFree '⏰' (countdown_note_of obs) := by
        unfold countdown_note_of
        simp only [hactF, if_false]
        exact charFree_empty _
      have h1 := hf obs.confirmations (by simp [obs_fields])
      have h2 := hf obs.kill_threshold (by simp [obs_fields])
      have h3 := hf obs.market_cap (by simp [obs_fields])
      have h4 := hf obs.eth_balance (by simp [obs_fields])
      have h5 := hf obs.token_symbol (by simp [obs_fields])
      have h6 := hf obs.token_balance (by simp [obs_fields])
      have h7 := hf obs.kill_switch_raw (by simp [obs_fields])
      have h8 := hf obs.balance_raw (by simp [obs_fields])
      exact not_contains_of_charFree clock_mem_countdown
        (charFree_build obs sp n clock_fixed_free hsp hcy
          (banners_clock_free _ (urgency_mem obs.danger_level)) hnote
          h1 h2 h3 h4 h5 h6 h7 h8) hcont
    · exact build_contains_countdown obs sp n
  · intro h
    unfold countdown_note_of
    simp [h]

/-- Witness for C5: on a benign snapshot with the countdown active the
equivalence holds (and the directive does contain the clause). -/
theorem C5_witness :
    ((Contains (build_cycle_prompt obs_fix "agent prompt" 3)
        countdown_clause ↔ obs_fix.is_countdown_active = true)
      ∧ (obs_fix.is_countdown_active = false →
          countdown_note_of obs_fix = ""))
    ∧ obs_fix.is_countdown_active = true :=
  ⟨C5_countdown_iff obs_fix "agent prompt" 3 (by unfold charFree; decide)
      (by unfold charFree; decide) (by unfold charFree; decide),
   rfl⟩

/-- Claim C6: for every snapshot, configuration and cycle number, the
directive contains the bracketed cycle header with the number as
supplied, the configured prefix verbatim when non-empty (otherwise the
documented default prompt), and both raw JSON blocks of the snapshot
verbatim. -/
theorem C6_verbatim_embedding (config : Config) (obs : Observations)
    (n : Nat) :
    Contains (build_cycle_prompt obs (survival_prompt_of config) n)
      ("[SURVIVAL CYCLE #" ++ toString n ++ "]")
    ∧ (config.survival.survival_prompt ≠ "" →
        Contains (build_cycle_prompt obs (survival_prompt_of config) n)
          config.survival.survival_prompt)
    ∧ (config.survival.survival_prompt = "" →
        Contains (build_cycle_prompt obs (survival_prompt_of config) n)
          default_survival_prompt)
    ∧ Contains (build_cycle_prompt obs (survival_prompt_of config) n)
        obs.kill_switch_raw
    ∧ Contains (build_cycle_prompt obs (survival_prompt_of config) n)
        obs.balance_raw := by
  refine ⟨build_contains_cycle obs (survival_prompt_of config) n,
    fun h => ?_, fun h => ?_,
    build_contains_ks_raw obs (survival_prompt_of config) n,
    build_contains_bal_raw obs (survival_prompt_of config) n⟩
  · have heq : survival_prompt_of config = config.survival.survival_prompt := by
      simp [survival_prompt_of, String.isEmpty_iff, h]
    rw [heq]
    exact build_contains_survival_prompt obs config.survival.survival_prompt n
  · have heq : survival_prompt_of config = default_survival_prompt := by
      unfold survival_prompt_of
      rw [h]
      rfl
    rw [heq]
    exact build_contains_survival_prompt obs default_survival_prompt n

/-- Witness for C6 at concrete inputs: empty configured prefix, cycle
42. -/
theorem C6_witness :
    Contains (build_cycle_prompt obs_fix (survival_prompt_of cfg_fix) 42)
      ("[SURVIVAL CYCLE #" ++ toString 42 ++ "]")
    ∧ Contains (build_cycle_prompt obs_fix (survival_prompt_of cfg_fix) 42)
        default_survival_prompt
    ∧ Contains (build_cycle_prompt obs_fix (survival_prompt_of cfg_fix) 42)
        obs_fix.kill_switch_raw :=
  ⟨(C6_verbatim_embedding cfg_fix obs_fix 42).1,
   (C6_verbatim_embedding cfg_fix obs_fix 42).2.2.1 rfl,
   (C6_verbatim_embedding cfg_fix obs_fix 42).2.2.2.1⟩

end ZeroClaw
